import Mathlib

/-!
# Verification of the isotp ISO-15765-2 core

Shallow embedding, in Lean 4, of the segmentation/reassembly engine and
frame codecs of the `isotp` repository (C sources under `src/`).  Machine
integers are modelled as `Int`/`Nat` with explicit wrapping where the C
code can wrap; C buffers are `List Nat` of byte values; NULL-able pointers
that a claim talks about are `Option`s; the injected CAN transport and the
monotonic clock are modelled as an explicit event queue (`Wire`).

Each C function keeps its source name.  Functions whose implementation is
absent from `src/` (only callers and unit tests are present) are modelled
from the specification and are marked `Modelled from the spec:` in their
doc comment.
-/

namespace Isotp

/-! ## Error codes (glibc errno values, as used by the C sources) -/

def EOK : Int := 0
def EFAULT : Int := 14
def EINVAL : Int := 22
def ERANGE : Int := 34
def ENOMSG : Int := 42
def ETIME : Int := 62
def EBADMSG : Int := 74
def EOVERFLOW : Int := 75
def EMSGSIZE : Int := 90
def ENOTSUP : Int := 95
def ECONNABORTED : Int := 103
def ENOBUFS : Int := 105
def ETIMEDOUT : Int := 110

/-- `INT_MAX` for the 32-bit C `int` of the target platform. -/
def INT_MAX : Int := 2147483647

/-- `MAX_TX_DATALEN = UINT32_MAX - 1` (isotp_private.h, ISO 15765-2 §9.1). -/
def MAX_TX_DATALEN : Int := 4294967294

/-- Value of a C `int` after the usual arithmetic conversion to `unsigned
int` (used when the C sources compare a signed length against
`MAX_TX_DATALEN`, which is an unsigned constant). -/
def uint32_of_int (n : Int) : Int := n % 4294967296

/-! ## CAN-frame helper module (src/can/can.c) -/

inductive CanFormat where
  | nullFormat
  | canClassic    -- CAN_FORMAT
  | canFd         -- CANFD_FORMAT
  | lastFormat
  deriving Repr, DecidableEq

/-- `can_max_datalen` (src/can/can.c): `{ -EINVAL, 8, 64, -ERANGE }`
indexed by the format enum. -/
def can_max_datalen : CanFormat → Int
  | .nullFormat => -EINVAL
  | .canClassic => 8
  | .canFd => 64
  | .lastFormat => -ERANGE

/-- `CAN_dlc_to_datalen` / `CANFD_dlc_to_datalen` (src/can/can.c). -/
def can_dlc_to_datalen (dlc : Int) (format : CanFormat) : Int :=
  if dlc < 0 then -EINVAL
  else
    match format with
    | .canClassic => if dlc ≤ 8 then dlc else -EINVAL
    | .canFd =>
        if dlc ≤ 8 then dlc
        else if dlc = 9 then 12
        else if dlc = 10 then 16
        else if dlc = 11 then 20
        else if dlc = 12 then 24
        else if dlc = 13 then 32
        else if dlc = 14 then 48
        else if dlc = 15 then 64
        else -EINVAL
    | _ => -EINVAL

/-- `CAN_datalen_to_dlc` / `CANFD_datalen_to_dlc` (src/can/can.c). -/
def can_datalen_to_dlc (datalen : Int) (format : CanFormat) : Int :=
  if datalen < 0 then -EINVAL
  else
    match format with
    | .canClassic => if datalen ≤ 8 then datalen else -EINVAL
    | .canFd =>
        if datalen ≤ 8 then datalen
        else if datalen ≤ 12 then 9
        else if datalen ≤ 16 then 10
        else if datalen ≤ 20 then 11
        else if datalen ≤ 24 then 12
        else if datalen ≤ 32 then 13
        else if datalen ≤ 48 then 14
        else if datalen ≤ 64 then 15
        else -EINVAL
    | _ => -EINVAL

/-- Padding byte `CAN_PADDING = 0xcc` (src/can/can.c). -/
def CAN_PADDING : Nat := 0xcc

/-- Byte-level effect of `pad_can_frame_internal` (src/can/can.c): the
frame, a `buf_len`-byte prefix, padded with `0xCC` up to the datalen of
its DLC, with a minimum of 8 bytes.  Returns the padded byte list and the
padded length; errors keep the buffer as is. -/
def pad_bytes (buf : List Nat) (buf_len : Int) (format : CanFormat)
    : Int × List Nat :=
  if buf_len < 0 ∨ buf_len > can_max_datalen format ∨
     (format ≠ .canClassic ∧ format ≠ .canFd) then
    (-EINVAL, buf)
  else
    let dlc := can_datalen_to_dlc buf_len format
    if dlc < 0 then (dlc, buf)
    else
      let expected := can_dlc_to_datalen dlc format
      if expected < 0 then (expected, buf)
      else
        let expected := max expected 8
        (expected,
         buf.take buf_len.toNat ++
           List.replicate (expected - buf_len).toNat CAN_PADDING)

/-- `pad_can_frame_len` (src/can/can.c): pads and returns the padded
datalen (not the DLC). -/
def pad_can_frame_len (buf : List Nat) (buf_len : Int) (format : CanFormat)
    : Int × List Nat :=
  pad_bytes buf buf_len format

/-! ## Addressing helpers (src/isotp_addressing.c) -/

inductive AddrMode where
  | nullMode       -- NULL_ISOTP_ADDRESSING_MODE
  | normal         -- ISOTP_NORMAL_ADDRESSING_MODE
  | normalFixed    -- ISOTP_NORMAL_FIXED_ADDRESSING_MODE
  | extended       -- ISOTP_EXTENDED_ADDRESSING_MODE
  | mixed          -- ISOTP_MIXED_ADDRESSING_MODE
  | lastMode       -- LAST_ISOTP_ADDRESSING_MODE
  deriving Repr, DecidableEq

/-- `address_extension_len` (src/isotp_addressing.c). -/
def address_extension_len : AddrMode → Int
  | .normal => 0
  | .normalFixed => 0
  | .extended => 1
  | .mixed => 1
  | _ => -EFAULT

/-! ## STmin codec (src/isotp_fc.c) -/

def USEC_PER_MSEC : Int := 1000
def MAX_STMIN : Int := 0x7f
def MAX_STMIN_USEC : Int := MAX_STMIN * USEC_PER_MSEC

/-- `fc_stmin_usec_to_parameter` (src/isotp_fc.c lines 340-362).  The C
`int` argument; division is exact C division (operands are non-negative in
the branches where it occurs). -/
def fc_stmin_usec_to_parameter (stmin_usec : Int) : Int :=
  if 0 ≤ stmin_usec ∧ stmin_usec < 100 then 0x00
  else if 100 ≤ stmin_usec ∧ stmin_usec < USEC_PER_MSEC then
    0xf0 + stmin_usec / 100
  else if USEC_PER_MSEC ≤ stmin_usec ∧ stmin_usec < MAX_STMIN_USEC then
    stmin_usec / USEC_PER_MSEC
  else MAX_STMIN

/-- `fc_stmin_parameter_to_usec` (src/isotp_fc.c lines 364-383).  The
argument is a byte (`uint8_t`), 0..255. -/
def fc_stmin_parameter_to_usec (stmin_param : Int) : Int :=
  if stmin_param = 0 then 0
  else if 0xf1 ≤ stmin_param ∧ stmin_param ≤ 0xf9 then
    (stmin_param - 0xf0) * 100
  else if 0 < stmin_param ∧ stmin_param ≤ MAX_STMIN then
    stmin_param * USEC_PER_MSEC
  else MAX_STMIN_USEC

/-! ## The ISOTP context (struct isotp_ctx_s)

Fields are those of the struct in src/isotp_private.h, together with the
fields the wired engines in src/isotp_send.c / src/isotp_recv.c and their
unit tests additionally read (`address_extension_len`, `can_max_datalen`,
`timeouts.*`); the latter group belongs to the newest generation of the
context, whose header is not under src/, and is typed here after its uses
and after `_can_max_datalen = can_max_datalen(can_format)` in the C++
variant.  Fields never touched by any modelled operation (`fs_blocksize`,
`fs_stmin`, the transport handle) are omitted; the transport callables are
modelled by the explicit `Wire` event queue defined below, with only the
NULL-ness of the tx callback kept (prepare_sf checks it). -/

structure IsotpCtx where
  can_format : CanFormat
  can_frame : List Nat          -- meaningful prefix of the 64-byte buffer
  can_frame_len : Nat
  addressing_mode : AddrMode
  address_extension : Nat
  address_extension_len : Nat
  can_max_datalen : Int
  total_datalen : Int
  remaining_datalen : Int
  sequence_num : Int
  timeouts_n_as : Nat
  timeouts_n_bs : Nat
  timeouts_n_cr : Nat
  timestamp_us : Nat
  fc_wait_max : Nat
  fc_wait_count : Nat
  can_tx_f_null : Bool
  deriving Repr, DecidableEq

/-- `get_isotp_address_extension` (src/isotp.c lines 413-420). -/
def get_isotp_address_extension (ctx : Option IsotpCtx) : Int :=
  match ctx with
  | none => -EINVAL
  | some c => (c.address_extension : Int)

/-- `set_isotp_address_extension` (src/isotp.c lines 422-430).  Returns
the C return code and the updated context. -/
def set_isotp_address_extension (ctx : Option IsotpCtx) (ae : Nat) :
    Int × Option IsotpCtx :=
  match ctx with
  | none => (-EINVAL, none)
  | some c => (EOK, some { c with address_extension := ae })

/-- `memcpy(&buf[off], src, src.length)` into a caller buffer. -/
def writeAt (buf : List Nat) (off : Nat) (src : List Nat) : List Nat :=
  buf.take off ++ src ++ buf.drop (off + src.length)

/-! ## Consecutive-Frame codec (src/isotp_cf.c) -/

structure CfParseOut where
  rc : Int
  ctx : IsotpCtx
  buf : List Nat
  deriving Repr, DecidableEq

/-- `parse_cf` (src/isotp_cf.c lines 40-103), for non-NULL `ctx` and
`recv_buf_p` (the C function returns `-EINVAL` on NULL pointers before
doing anything else).  On the sequence-number mismatch the C code sets
`sequence_num = INT_MAX; remaining_datalen = INT_MAX`.  `x & 0x0f` on the
matched (hence in-range 0..15) sequence number is written `% 16`. -/
def parse_cf (ctx : IsotpCtx) (recv_buf : List Nat) (recv_buf_sz : Int) :
    CfParseOut :=
  if recv_buf_sz < 0 ∨ uint32_of_int recv_buf_sz > MAX_TX_DATALEN then
    ⟨-ERANGE, ctx, recv_buf⟩
  else if ctx.total_datalen > recv_buf_sz then
    ⟨-ENOBUFS, ctx, recv_buf⟩
  else
    let ae_l := address_extension_len ctx.addressing_mode
    if ae_l < 0 then ⟨ae_l, ctx, recv_buf⟩
    else
      let pciByte := ctx.can_frame.getD ae_l.toNat 0
      if pciByte &&& 0xf0 ≠ 0x20 then
        ⟨-EBADMSG, ctx, recv_buf⟩
      else
        let sn : Int := (pciByte &&& 0x0f : Nat)
        if sn ≠ ctx.sequence_num then
          ⟨-ECONNABORTED,
           { ctx with sequence_num := INT_MAX, remaining_datalen := INT_MAX },
           recv_buf⟩
        else
          let ctx := { ctx with sequence_num := (ctx.sequence_num + 1) % 16 }
          let ctx :=
            if 0 < ae_l then
              { ctx with address_extension := ctx.can_frame.getD 0 0 }
            else ctx
          let copy_len : Int :=
            min ((ctx.can_frame_len : Int) - (ae_l + 1)) ctx.remaining_datalen
          let src := (ctx.can_frame.drop (ae_l.toNat + 1)).take copy_len.toNat
          let off := (ctx.total_datalen - ctx.remaining_datalen).toNat
          ⟨copy_len,
           { ctx with remaining_datalen := ctx.remaining_datalen - copy_len },
           writeAt recv_buf off src⟩

/-- `prepare_cf` (src/isotp_cf.c lines 105-172), for non-NULL `ctx` and
`send_buf_p`.  `(seq + 1) & 0xf` on the C `int` equals `(seq + 1) % 16`
with Lean's `Int` `%` (euclidean remainder, matching two's-complement
low-bit extraction). -/
def prepare_cf (ctx : IsotpCtx) (send_buf : List Nat) (send_buf_len : Int) :
    Int × IsotpCtx :=
  if send_buf_len < 0 ∨ uint32_of_int send_buf_len > MAX_TX_DATALEN then
    (-ERANGE, ctx)
  else if ctx.total_datalen > send_buf_len then
    (-EMSGSIZE, ctx)
  else
    let ae_l := address_extension_len ctx.addressing_mode
    if ae_l < 0 then (ae_l, ctx)
    else
      let aePart : List Nat :=
        if 0 < ae_l then [ctx.address_extension &&& 0xff] else []
      let pciByte : Nat := 0x20 + ((ctx.sequence_num % 16).toNat)
      let seq' := (ctx.sequence_num + 1) % 16
      let hdr_len : Int := ae_l + 1
      let copy_len : Int :=
        min (can_max_datalen ctx.can_format - hdr_len) ctx.remaining_datalen
      let data :=
        (send_buf.drop (ctx.total_datalen - ctx.remaining_datalen).toNat).take
          copy_len.toNat
      let frame := aePart ++ [pciByte] ++ data
      let frame_len : Int := hdr_len + copy_len
      let padded := pad_can_frame_len frame frame_len ctx.can_format
      if padded.fst < 0 then
        (padded.fst,
         { ctx with can_frame := frame, can_frame_len := frame_len.toNat,
                    sequence_num := seq' })
      else
        (padded.fst,
         { ctx with can_frame := padded.snd,
                    can_frame_len := padded.fst.toNat,
                    sequence_num := seq',
                    remaining_datalen := ctx.remaining_datalen - copy_len })

/-! ## Flow-Control codec (src/isotp_fc.c) -/

/-- `enum isotp_fc_flowstatus_e` (src/isotp_private.h). -/
inductive FlowStatus where
  | nullFs
  | cts
  | wait
  | ovflw
  | lastFs
  deriving Repr, DecidableEq

/-- `parse_fc` (src/isotp_fc.c lines 209-265), for non-NULL pointers.  On
success the C function writes the flow status, block size and the decoded
STmin (µs) through out-parameters and returns `EOK`; modelled as
`Except`.  Note `FC_FS_MASK` is `0x07` in the source. -/
def parse_fc (ctx : IsotpCtx) : Except Int (FlowStatus × Nat × Int) :=
  let ae_l := address_extension_len ctx.addressing_mode
  if ae_l < 0 then .error ae_l
  else if (ctx.can_frame_len : Int) < 3 + ae_l then .error (-EMSGSIZE)
  else
    let b := ctx.can_frame.getD ae_l.toNat 0
    if b &&& 0xf0 ≠ 0x30 then .error (-ENOMSG)
    else
      let bs := ctx.can_frame.getD (ae_l.toNat + 1) 0
      let stmin :=
        fc_stmin_parameter_to_usec (ctx.can_frame.getD (ae_l.toNat + 2) 0)
      if b &&& 0x07 = 0x00 then .ok (.cts, bs, stmin)
      else if b &&& 0x07 = 0x01 then .ok (.wait, bs, stmin)
      else if b &&& 0x07 = 0x02 then .ok (.ovflw, bs, stmin)
      else .error (-EBADMSG)

/-- `prepare_fc` (src/isotp_fc.c lines 267-338), for a non-NULL context. -/
def prepare_fc (ctx : IsotpCtx) (flowstatus : FlowStatus) (blocksize : Nat)
    (stmin_usec : Int) : Int × IsotpCtx :=
  let ae_l := address_extension_len ctx.addressing_mode
  if ae_l < 0 then (ae_l, ctx)
  else
    match flowstatus with
    | .nullFs => (-EINVAL, ctx)
    | .lastFs => (-EINVAL, ctx)
    | fs =>
      let pci : Nat :=
        match fs with
        | .cts => 0x30
        | .wait => 0x31
        | _ => 0x32
      let aePart : List Nat :=
        if 0 < ae_l then [ctx.address_extension &&& 0xff] else []
      let frame :=
        aePart ++ [pci, blocksize, (fc_stmin_usec_to_parameter stmin_usec).toNat]
      let frame_len : Int := ae_l + 3
      let padded := pad_can_frame_len frame frame_len ctx.can_format
      if padded.fst < 0 then
        (padded.fst,
         { ctx with can_frame := frame, can_frame_len := frame_len.toNat })
      else
        (padded.fst,
         { ctx with can_frame := padded.snd, can_frame_len := padded.fst.toNat })

/-! ## Single-Frame codec (src/isotp_sf.c) -/

structure SfParseOut where
  rc : Int
  ctx : IsotpCtx
  buf : List Nat
  deriving Repr, DecidableEq

/-- `process_sf_no_esc` (src/isotp_sf.c lines 92-174), non-NULL pointers.
The C `ctx->can_frame_len < 0` test is vacuous on the `Nat` field.  Note
the source masks the payload length with `0x07`, not `0x0f`. -/
def process_sf_no_esc (ctx : IsotpCtx) (recv_buf : List Nat)
    (recv_buf_sz : Int) : SfParseOut :=
  if recv_buf_sz < 0 ∨ uint32_of_int recv_buf_sz > MAX_TX_DATALEN then
    ⟨-ERANGE, ctx, recv_buf⟩
  else if (ctx.can_frame_len : Int) > can_max_datalen .canClassic then
    ⟨-EBADMSG, ctx, recv_buf⟩
  else
    let sf_pci := ctx.can_frame.getD ctx.address_extension_len 0
    if sf_pci &&& 0xf0 ≠ 0x00 then ⟨-ENOMSG, ctx, recv_buf⟩
    else
      let sf_dl : Nat := sf_pci &&& 0x07
      if sf_dl = 0 then ⟨-ENOTSUP, ctx, recv_buf⟩
      else if sf_dl = 7 ∧ ctx.address_extension_len ≠ 0 then
        ⟨-ENOTSUP, ctx, recv_buf⟩
      else if (sf_dl : Int) > recv_buf_sz then ⟨-ENOBUFS, ctx, recv_buf⟩
      else
        let payload :=
          (ctx.can_frame.drop (ctx.address_extension_len + 1)).take sf_dl
        let ctx := { ctx with total_datalen := 0, remaining_datalen := 0 }
        let ctx :=
          if ctx.address_extension_len > 0 then
            { ctx with address_extension := ctx.can_frame.getD 0 0 }
          else ctx
        ⟨(sf_dl : Int), ctx, writeAt recv_buf 0 payload⟩

/-- `process_sf_with_esc` (src/isotp_sf.c lines 176-323), non-NULL
pointers.  The escaped form; note the source zeroes `total_datalen` but
not `remaining_datalen` here, and performs no `recv_buf_sz` capacity check
before the copy. -/
def process_sf_with_esc (ctx : IsotpCtx) (recv_buf : List Nat)
    (recv_buf_sz : Int) : SfParseOut :=
  let ae_l := address_extension_len ctx.addressing_mode
  if ae_l < 0 then ⟨ae_l, ctx, recv_buf⟩
  else if recv_buf_sz < 0 ∨ uint32_of_int recv_buf_sz > MAX_TX_DATALEN then
    ⟨-ERANGE, ctx, recv_buf⟩
  else if (ctx.can_frame_len : Int) ≤ can_max_datalen .canClassic ∨
          (ctx.can_frame_len : Int) > can_max_datalen .canFd then
    ⟨-EBADMSG, ctx, recv_buf⟩
  else
    let sf_pci := ctx.can_frame.getD ae_l.toNat 0
    if sf_pci ≠ 0x00 then ⟨-EBADMSG, ctx, recv_buf⟩
    else
      let sf_dl := ctx.can_frame.getD (ae_l.toNat + 1) 0
      if sf_dl ≤ 6 then ⟨-ENOTSUP, ctx, recv_buf⟩
      else if sf_dl = 7 ∧ ae_l = 0 then ⟨-ENOTSUP, ctx, recv_buf⟩
      else if sf_dl = 62 ∧ ae_l ≠ 0 then ⟨-ENOTSUP, ctx, recv_buf⟩
      else if sf_dl > 62 then ⟨-EFAULT, ctx, recv_buf⟩
      else
        let payload := (ctx.can_frame.drop (ae_l.toNat + 2)).take sf_dl
        let ctx := { ctx with total_datalen := 0 }
        let ctx :=
          if 0 < ae_l then
            { ctx with address_extension := ctx.can_frame.getD 0 0 }
          else ctx
        ⟨(sf_dl : Int), ctx, writeAt recv_buf 0 payload⟩

/-- `parse_sf` (src/isotp_sf.c lines 325-363), non-NULL pointers (the
unused `timeout_us` parameter is dropped). -/
def parse_sf (ctx : IsotpCtx) (recv_buf : List Nat) (recv_buf_sz : Int) :
    SfParseOut :=
  if recv_buf_sz < 0 ∨ uint32_of_int recv_buf_sz > MAX_TX_DATALEN then
    ⟨-ERANGE, ctx, recv_buf⟩
  else if (ctx.can_frame.getD ctx.address_extension_len 0) &&& 0xf0 ≠ 0x00 then
    ⟨-EBADMSG, ctx, recv_buf⟩
  else if (ctx.can_frame_len : Int) > can_max_datalen .canFd then
    ⟨-EBADMSG, ctx, recv_buf⟩
  else if (ctx.can_frame_len : Int) ≤ can_max_datalen .canClassic then
    process_sf_no_esc ctx recv_buf recv_buf_sz
  else if (ctx.can_frame_len : Int) > can_max_datalen .canClassic ∧
          (ctx.can_frame_len : Int) ≤ can_max_datalen .canFd ∧
          ctx.can_format = .canFd then
    process_sf_with_esc ctx recv_buf recv_buf_sz
  else
    ⟨-ENOTSUP, ctx, recv_buf⟩

/-- `prepare_sf` (src/isotp_sf.c lines 365-440).  The NULL-able `ctx` and
`send_buf_p` pointers are `Option`s, and the NULL-ness of the tx callback
the C code also rejects is the `can_tx_f_null` field.  The `pad_can_frame`
call at the end pads the frame bytes but its return value is discarded, so
`can_frame_len` stays at header + payload, as in the source. -/
def prepare_sf (ctxOpt : Option IsotpCtx) (bufOpt : Option (List Nat))
    (send_buf_len : Int) : Int × Option IsotpCtx :=
  match ctxOpt, bufOpt with
  | none, _ => (-EINVAL, ctxOpt)
  | some _, none => (-EINVAL, ctxOpt)
  | some ctx, some send_buf =>
    if ctx.can_tx_f_null then (-EINVAL, ctxOpt)
    else if send_buf_len < 0 ∨ uint32_of_int send_buf_len > MAX_TX_DATALEN then
      (-ERANGE, ctxOpt)
    else
      let ctx0 := { ctx with can_frame := [], can_frame_len := 0,
                             total_datalen := 0, remaining_datalen := 0 }
      let finish (header : List Nat) (hdr_len : Nat) (c : IsotpCtx) :
          Int × Option IsotpCtx :=
        let data := send_buf.take send_buf_len.toNat
        let frame := header ++ data
        let frame_len := hdr_len + send_buf_len.toNat
        let padBytesOut := pad_bytes frame (frame_len : Int) c.can_format
        (send_buf_len,
         some { c with can_frame := padBytesOut.snd, can_frame_len := frame_len })
      match ctx.addressing_mode with
      | .normal | .normalFixed =>
        if 0 ≤ send_buf_len ∧ send_buf_len ≤ 7 then
          finish [0x00 + send_buf_len.toNat] 1 ctx0
        else if 8 ≤ send_buf_len ∧
                send_buf_len ≤ can_max_datalen ctx.can_format - 2 ∧
                send_buf_len ≤ 255 then
          finish [0x00, send_buf_len.toNat &&& 0xff] 2 ctx0
        else
          (-EOVERFLOW, some ctx0)
      | .extended | .mixed =>
        let ae := ctx.address_extension &&& 0xff
        let ctx1 := { ctx0 with can_frame := [ae], can_frame_len := 1 }
        if 0 ≤ send_buf_len ∧ send_buf_len ≤ 6 then
          finish [ae, 0x00 + send_buf_len.toNat] 2 ctx1
        else if send_buf_len ≤ can_max_datalen ctx.can_format - 3 then
          -- the source also does `ctx->total_datalen += 2` in this branch
          finish [ae, 0x00, send_buf_len.toNat &&& 0xff] 3
            { ctx1 with total_datalen := 2 }
        else
          (-EOVERFLOW, some ctx1)
      | _ => (-EFAULT, some ctx0)

/-! ## First-Frame codec

The `parse_ff`/`prepare_ff` implementation is not present under src/:
src/isotp_ff.c holds only an earlier-generation `receive_ff`/`transmit_ff`
API that src/isotp_recv.c and src/isotp_send.c do not call.  Only the
callers and the unit tests (src/unit_tests/isotp_ff_ut.c) of
`parse_ff`/`prepare_ff` are present, so the pair is modelled from the
specification, §4.3, consistent with those unit tests. -/

/-- Modelled from the spec: `FF_DLmin` (ISO 15765-2:2016 table 14) —
classic CAN: `max_payload - extension_len`; CAN-FD:
`max_payload - extension_len - 1`; invalid format is an error (the unit
tests expect `-EFAULT` there). -/
def ff_dlmin (ctx : IsotpCtx) : Int :=
  let cm := can_max_datalen ctx.can_format
  if cm < 0 then -EFAULT
  else
    match ctx.can_format with
    | .canClassic => cm - (ctx.address_extension_len : Int)
    | _ => cm - (ctx.address_extension_len : Int) - 1

/-- Modelled from the spec: `parse_ff` (First-Frame parser; implementation
absent from src/).  Reads the AE byte if applicable, requires PCI nibble
`0x1`, decodes `FF_DL` (short 12-bit form, or 32-bit escaped form when the
two header bytes are `0x10 0x00`), rejects `FF_DL < FF_DLmin` as
`-EBADMSG` and `FF_DL > recv_buf_sz` as `-EOVERFLOW`, then copies the
payload bytes of the frame, sets `total_datalen ← FF_DL`,
`remaining_datalen ← FF_DL - copied`, `sequence_num ← 1`, and returns the
number of bytes copied. -/
def parse_ff (ctx : IsotpCtx) (recv_buf : List Nat) (recv_buf_sz : Int) :
    SfParseOut :=
  if recv_buf_sz < 0 ∨ uint32_of_int recv_buf_sz > MAX_TX_DATALEN then
    ⟨-ERANGE, ctx, recv_buf⟩
  else
    let ae := ctx.address_extension_len
    let b0 := ctx.can_frame.getD ae 0
    if b0 &&& 0xf0 ≠ 0x10 then ⟨-EBADMSG, ctx, recv_buf⟩
    else
      let dlmin := ff_dlmin ctx
      if dlmin < 0 then ⟨-EFAULT, ctx, recv_buf⟩
      else
        let finish (ffdl : Int) (hdr : Nat) : SfParseOut :=
          let copied : Int := (ctx.can_frame_len : Int) - hdr
          let payload := (ctx.can_frame.drop hdr).take copied.toNat
          let ctx := { ctx with total_datalen := ffdl,
                                remaining_datalen := ffdl - copied,
                                sequence_num := 1 }
          let ctx :=
            if 0 < ae then
              { ctx with address_extension := ctx.can_frame.getD 0 0 }
            else ctx
          ⟨copied, ctx, writeAt recv_buf 0 payload⟩
        if b0 = 0x10 ∧ ctx.can_frame.getD (ae + 1) 0 = 0 then
          -- escaped form: 32-bit big-endian FF_DL
          let ffdl : Int :=
            ((ctx.can_frame.getD (ae + 2) 0) * 16777216 +
             (ctx.can_frame.getD (ae + 3) 0) * 65536 +
             (ctx.can_frame.getD (ae + 4) 0) * 256 +
             (ctx.can_frame.getD (ae + 5) 0) : Nat)
          if ffdl < 4096 then ⟨-EBADMSG, ctx, recv_buf⟩
          else if ffdl > recv_buf_sz then ⟨-EOVERFLOW, ctx, recv_buf⟩
          else finish ffdl (ae + 6)
        else
          -- short form: 12-bit FF_DL
          let ffdl : Int :=
            ((b0 &&& 0x0f) * 256 + ctx.can_frame.getD (ae + 1) 0 : Nat)
          if ffdl < dlmin then ⟨-EBADMSG, ctx, recv_buf⟩
          else if ffdl > recv_buf_sz then ⟨-EOVERFLOW, ctx, recv_buf⟩
          else finish ffdl (ae + 2)

/-- Modelled from the spec: `prepare_ff` (First-Frame builder;
implementation absent from src/).  Rejects `total_len < FF_DLmin` as out
of range; emits the short header `[AE?] (0x10|hi4) lo8` for
`total_len ≤ 4095` and the escaped header `[AE?] 0x10 0x00 B3 B2 B1 B0`
above that; fills the rest of the frame with payload; stores
`total_datalen ← total_len`, `remaining_datalen ← total_len - copied`,
`sequence_num ← 1`; returns the bytes copied. -/
def prepare_ff (ctx : IsotpCtx) (send_buf : List Nat) (send_buf_len : Int) :
    Int × IsotpCtx :=
  if send_buf_len < 0 ∨ uint32_of_int send_buf_len > MAX_TX_DATALEN then
    (-ERANGE, ctx)
  else
    let dlmin := ff_dlmin ctx
    if dlmin < 0 then (-EFAULT, ctx)
    else if send_buf_len < dlmin then (-ERANGE, ctx)
    else
      let aePart : List Nat :=
        if 0 < ctx.address_extension_len then [ctx.address_extension &&& 0xff]
        else []
      let n := send_buf_len.toNat
      let header :=
        if send_buf_len ≤ 4095 then aePart ++ [0x10 + n / 256, n % 256]
        else
          aePart ++ [0x10, 0x00, n / 16777216 &&& 0xff, n / 65536 &&& 0xff,
                     n / 256 &&& 0xff, n &&& 0xff]
      let copied : Int := can_max_datalen ctx.can_format - header.length
      let frame := header ++ send_buf.take copied.toNat
      (copied,
       { ctx with can_frame := frame,
                  can_frame_len := frame.length,
                  total_datalen := send_buf_len,
                  remaining_datalen := send_buf_len - copied,
                  sequence_num := 1 })

/-! ## Timers and the injected transport

`timeout_start` / `timeout_expired` and the `can_rx` / `can_tx` /
`platform_sleep_usec` callables are external to the modelled core (the
timer helpers' implementation is not under src/; spec §4.8, §5, §6.2).
Modelled from the spec: the clock is a microsecond counter advanced by the
blocking calls, `timeout_start` records it, `timeout_expired` compares the
elapsed time against the applicable bound.  The transport is an explicit
queue of scripted receive/transmit outcomes; an exhausted receive queue
means no frame ever arrives, which in the blocking C code is a hang —
represented by the distinguished code `BLOCKED`. -/

def BLOCKED : Int := -1000

/-- One scripted outcome of a blocking `can_rx` call: how long the call
blocked, and either a negative transport error or the received frame. -/
structure RxEv where
  dur : Nat
  res : Except Int (List Nat)
  deriving Repr

/-- One scripted outcome of a blocking `can_tx` call. -/
structure TxEv where
  dur : Nat
  rc : Int
  deriving Repr, DecidableEq

/-- Transport-and-clock state threaded through an engine run, together
with the run's observable trace: the frames handed to `can_tx`, and for
each timeout check of the send engine the triple (FCs successfully parsed
so far, `fc_wait_count`, bound compared against the timer). -/
structure Wire where
  rxq : List RxEv
  txq : List TxEv
  clock : Nat
  txLog : List (List Nat)
  fcSeen : Nat
  checkLog : List (Nat × Nat × Nat)
  deriving Repr

/-- `can_tx` invocation: pops the next scripted outcome (an exhausted
script means the transport keeps succeeding), advances the clock, records
the transmitted frame. -/
def wireTx (w : Wire) (frame : List Nat) : Int × Wire :=
  match w.txq with
  | [] => (0, { w with txLog := w.txLog ++ [frame] })
  | ev :: rest =>
      (ev.rc, { w with txq := rest, clock := w.clock + ev.dur,
                       txLog := w.txLog ++ [frame] })

/-- Modelled from the spec: `timeout_start` — arm the protocol timer. -/
def timeout_start (ctx : IsotpCtx) (clock : Nat) : IsotpCtx :=
  { ctx with timestamp_us := clock }

/-- Modelled from the spec: `timeout_expired` — has more than `bound`
microseconds elapsed since the timer was armed. -/
def timeout_expired (ctx : IsotpCtx) (clock : Nat) (bound : Nat) : Bool :=
  bound < clock - ctx.timestamp_us

/-! ## Send engine (src/isotp_send.c) -/

/-- Result of an engine run: C return code, final context, caller buffer
(for the receive side), transport state and trace. -/
structure SendOut where
  rc : Int
  ctx : IsotpCtx
  w : Wire
  deriving Repr

/-- `send_sf` (src/isotp_send.c lines 35-53). -/
def send_sf (ctx : IsotpCtx) (send_buf : List Nat) (send_buf_len : Int)
    (w : Wire) : SendOut :=
  match prepare_sf (some ctx) (some send_buf) send_buf_len with
  | (rc, ctxOpt) =>
    let ctx := ctxOpt.getD ctx
    if rc < 0 then ⟨rc, ctx, w⟩
    else
      let t := wireTx w (ctx.can_frame.take ctx.can_frame_len)
      ⟨t.fst, ctx, t.snd⟩

/-- `send_cfs` (src/isotp_send.c lines 55-94).  `fuel` bounds the CF
loop; every iteration with a valid CAN format copies at least one payload
byte, so `remaining_datalen.toNat` fuel is enough, and exhausting it
(impossible in the runs considered) yields `BLOCKED - 1`.
`platform_sleep_usec` succeeds and advances the clock by the STmin. -/
def send_cfs : Nat → IsotpCtx → List Nat → Int → Int → Nat → Nat →
    Wire → SendOut
  | 0, ctx, _, _, _, blocksize, bs, w =>
    if ¬ (ctx.remaining_datalen > 0 ∧ (blocksize = 0 ∨ bs > 0)) then
      ⟨EOK, ctx, w⟩
    else ⟨BLOCKED - 1, ctx, w⟩
  | fuel + 1, ctx, send_buf, send_buf_len, stmin_usec, blocksize, bs, w =>
    if ¬ (ctx.remaining_datalen > 0 ∧ (blocksize = 0 ∨ bs > 0)) then
      ⟨EOK, ctx, w⟩
    else
      match prepare_cf ctx send_buf send_buf_len with
      | (rc, ctx) =>
        if rc < 0 then ⟨rc, ctx, w⟩
        else
          let t := wireTx w (ctx.can_frame.take ctx.can_frame_len)
          if t.fst < 0 then ⟨t.fst, ctx, t.snd⟩
          else
            let bs' := if bs > 0 then bs - 1 else bs
            let w := { t.snd with clock := t.snd.clock + stmin_usec.toNat }
            send_cfs fuel ctx send_buf send_buf_len stmin_usec blocksize bs' w

/-- The FC-wait loop of `send_ff` (src/isotp_send.c lines 125-195).  Each
iteration logs the timeout check it performs — the triple (FCs parsed so
far, `fc_wait_count`, applicable bound) — then receives and dispatches one
FC.  `fuel` is the length of the scripted receive queue: every iteration
that continues has consumed exactly one receive event. -/
def send_ff_loop : Nat → IsotpCtx → List Nat → Int → Wire → SendOut
  | 0, ctx, _, _, w =>
    -- fuel exhausted: the loop would block in `can_rx` with no scripted
    -- reception left; the iteration prelude (exit test, timeout check)
    -- still runs
    if ¬ (ctx.remaining_datalen > 0) then ⟨EOK, ctx, w⟩
    else
      let applicable :=
        if ctx.fc_wait_count = 0 then ctx.timeouts_n_as else ctx.timeouts_n_bs
      let w := { w with checkLog := w.checkLog ++ [(w.fcSeen, ctx.fc_wait_count, applicable)] }
      if timeout_expired ctx w.clock applicable then ⟨-ETIMEDOUT, ctx, w⟩
      else ⟨BLOCKED, ctx, w⟩
  | fuel + 1, ctx, send_buf, send_buf_len, w =>
    if ¬ (ctx.remaining_datalen > 0) then ⟨EOK, ctx, w⟩
    else
      let applicable :=
        if ctx.fc_wait_count = 0 then ctx.timeouts_n_as else ctx.timeouts_n_bs
      let w := { w with checkLog := w.checkLog ++ [(w.fcSeen, ctx.fc_wait_count, applicable)] }
      if timeout_expired ctx w.clock applicable then ⟨-ETIMEDOUT, ctx, w⟩
      else
      match w.rxq with
      | [] => ⟨BLOCKED, ctx, w⟩
      | ev :: rest =>
        let w := { w with rxq := rest, clock := w.clock + ev.dur }
        match ev.res with
        | .error e => ⟨e, ctx, w⟩
        | .ok f =>
          let ctx := { ctx with can_frame := f, can_frame_len := f.length }
          match parse_fc ctx with
          | .error e => ⟨e, ctx, w⟩
          | .ok (fs, bs, stmin_usec) =>
            let w := { w with fcSeen := w.fcSeen + 1 }
            match fs with
            | .cts =>
              let r := send_cfs ctx.remaining_datalen.toNat ctx send_buf
                         send_buf_len stmin_usec bs bs w
              if r.rc < 0 then r
              else
                let ctx : IsotpCtx := { r.ctx with fc_wait_count := 0 }
                let ctx : IsotpCtx :=
                  if ctx.remaining_datalen > 0 then timeout_start ctx r.w.clock
                  else ctx
                send_ff_loop fuel ctx send_buf send_buf_len r.w
            | .wait =>
              let ctx := { ctx with fc_wait_count := (ctx.fc_wait_count + 1) % 256 }
              if ctx.fc_wait_max > 0 ∧ ctx.fc_wait_count > ctx.fc_wait_max then
                ⟨-ECONNABORTED, ctx, w⟩
              else
                send_ff_loop fuel (timeout_start ctx w.clock) send_buf
                  send_buf_len w
            | .ovflw => ⟨-ECONNABORTED, ctx, w⟩
            | _ => ⟨-EBADMSG, ctx, w⟩  -- C default branch; parse_fc never yields these

/-- `send_ff` (src/isotp_send.c lines 96-198): FF, then the FC loop. -/
def send_ff (ctx : IsotpCtx) (send_buf : List Nat) (send_buf_len : Int)
    (w : Wire) : SendOut :=
  match prepare_ff ctx send_buf send_buf_len with
  | (rc, ctx) =>
    if rc < 0 then ⟨rc, ctx, w⟩
    else
      let t := wireTx w (ctx.can_frame.take ctx.can_frame_len)
      if t.fst < 0 then ⟨t.fst, ctx, t.snd⟩
      else
        let ctx := { ctx with fc_wait_count := 0 }
        let ctx := timeout_start ctx t.snd.clock
        send_ff_loop t.snd.rxq.length ctx send_buf send_buf_len t.snd

/-- `isotp_send` (src/isotp_send.c lines 200-225), for non-NULL `ctx` and
`send_buf_p` (the C function returns `-EINVAL` on NULL before anything
else). -/
def isotp_send (ctx : IsotpCtx) (send_buf : List Nat) (send_buf_len : Int)
    (w : Wire) : SendOut :=
  if send_buf_len < 0 ∨ uint32_of_int send_buf_len > MAX_TX_DATALEN then
    ⟨-ERANGE, ctx, w⟩
  else if send_buf_len ≤ ctx.can_max_datalen then
    send_sf ctx send_buf send_buf_len w
  else
    send_ff ctx send_buf send_buf_len w

/-! ## Receive engine (src/isotp_recv.c) -/

structure RecvOut where
  rc : Int
  ctx : IsotpCtx
  buf : List Nat
  w : Wire
  deriving Repr

/-- The inner CF-block loop of `recv_cfs` (src/isotp_recv.c lines 65-98):
receive up to `bs` CFs (indefinitely if `blocksize = 0`), restarting the
N_Cr timer after each, carrying the last return code.  `.error` is a C
`return` from inside the loop; `.ok` is normal loop exit. -/
def recv_cf_block (fuel : Nat) (rc : Int) (ctx : IsotpCtx) (buf : List Nat)
    (recv_buf_sz : Int) (blocksize : Nat) (bs : Nat) (w : Wire) :
    Except RecvOut (Int × IsotpCtx × List Nat × Wire) :=
  if ¬ (ctx.remaining_datalen > 0 ∧ (blocksize = 0 ∨ bs > 0)) then
    .ok (rc, ctx, buf, w)
  else if timeout_expired ctx w.clock ctx.timeouts_n_cr then
    .error ⟨-ETIMEDOUT, ctx, buf, w⟩
  else
    match fuel, w.rxq with
    | _, [] => .error ⟨BLOCKED, ctx, buf, w⟩
    | 0, _ :: _ => .error ⟨BLOCKED, ctx, buf, w⟩
    | fuel + 1, ev :: rest =>
      let w := { w with rxq := rest, clock := w.clock + ev.dur }
      match ev.res with
      | .error e => .error ⟨e, ctx, buf, w⟩
      | .ok f =>
        let ctx := { ctx with can_frame := f, can_frame_len := f.length }
        let out := parse_cf ctx buf recv_buf_sz
        if out.rc < 0 then .error ⟨out.rc, out.ctx, out.buf, w⟩
        else
          let ctx := timeout_start out.ctx w.clock
          let bs' := if bs > 0 then bs - 1 else bs
          recv_cf_block fuel out.rc ctx out.buf recv_buf_sz blocksize bs' w

/-- The outer FC/block loop of `recv_cfs` (src/isotp_recv.c lines 45-99):
send an `FC.CTS`, then receive a block of CFs, until nothing remains. -/
def recv_cfs_outer (fuel : Nat) (rc : Int) (ctx : IsotpCtx) (buf : List Nat)
    (recv_buf_sz : Int) (blocksize : Nat) (stmin_usec : Int) (w : Wire) :
    RecvOut :=
  if ¬ (ctx.remaining_datalen > 0) then ⟨rc, ctx, buf, w⟩
  else
    match fuel with
    | 0 => ⟨BLOCKED, ctx, buf, w⟩
    | fuel + 1 =>
      match prepare_fc ctx .cts blocksize stmin_usec with
      | (rcFc, ctx) =>
        if rcFc < 0 then ⟨rcFc, ctx, buf, w⟩
        else
          let t := wireTx w (ctx.can_frame.take ctx.can_frame_len)
          if t.fst < 0 then ⟨t.fst, ctx, buf, t.snd⟩
          else
            let ctx := timeout_start ctx t.snd.clock
            match recv_cf_block t.snd.rxq.length rcFc ctx buf recv_buf_sz
                    blocksize blocksize t.snd with
            | .error r => r
            | .ok (rc, ctx, buf, w) =>
              recv_cfs_outer fuel rc ctx buf recv_buf_sz blocksize
                stmin_usec w

/-- `recv_cfs` (src/isotp_recv.c lines 33-102). -/
def recv_cfs (ctx : IsotpCtx) (buf : List Nat) (recv_buf_sz : Int)
    (blocksize : Nat) (stmin_usec : Int) (w : Wire) : RecvOut :=
  let ctx := timeout_start ctx w.clock
  recv_cfs_outer (w.rxq.length + 1) EOK ctx buf recv_buf_sz blocksize
    stmin_usec w

/-- `isotp_recv` (src/isotp_recv.c lines 104-165), for non-NULL `ctx` and
`recv_buf_p`.  The per-call transport `timeout` argument only flows into
the scripted transport outcomes and is dropped. -/
def isotp_recv (ctx : IsotpCtx) (recv_buf : List Nat) (recv_buf_sz : Int)
    (blocksize : Nat) (stmin_usec : Int) (w : Wire) : RecvOut :=
  if recv_buf_sz < 0 ∨ uint32_of_int recv_buf_sz > MAX_TX_DATALEN then
    ⟨-ERANGE, ctx, recv_buf, w⟩
  else
    let ctx := { ctx with total_datalen := 0, remaining_datalen := 0 }
    match w.rxq with
    | [] => ⟨BLOCKED, ctx, recv_buf, w⟩
    | ev :: rest =>
      let w := { w with rxq := rest, clock := w.clock + ev.dur }
      match ev.res with
      | .error e => ⟨e, ctx, recv_buf, w⟩
      | .ok f =>
        let ctx := { ctx with can_frame := f, can_frame_len := f.length }
        -- the common `if (rc < 0) return rc; else return total, reset` tail
        -- of the C function is written out in both dispatch arms
        let pci := (ctx.can_frame.getD ctx.address_extension_len 0) &&& 0xf0
        if pci = 0x00 then
          let out := parse_sf ctx recv_buf recv_buf_sz
          if out.rc < 0 then ⟨out.rc, out.ctx, out.buf, w⟩
          else
            ⟨out.ctx.total_datalen,
             { out.ctx with total_datalen := 0, remaining_datalen := 0 },
             out.buf, w⟩
        else if pci = 0x10 then
          let out := parse_ff ctx recv_buf recv_buf_sz
          if out.rc < 0 then ⟨out.rc, out.ctx, out.buf, w⟩
          else
            let r := recv_cfs out.ctx out.buf recv_buf_sz blocksize
                       stmin_usec w
            if r.rc < 0 then r
            else
              ⟨r.ctx.total_datalen,
               { r.ctx with total_datalen := 0, remaining_datalen := 0 },
               r.buf, r.w⟩
        else
          ⟨-ENOMSG, ctx, recv_buf, w⟩

/-! ## Concrete fixtures used by the theorems -/

/-- A context as produced by `isotp_ctx_init` for classic CAN, normal
addressing, and the given `max_fc_wait_frames`: all mutable fields zeroed,
`can_max_datalen = can_max_datalen(CAN_FORMAT) = 8`; distinguishable
timer bounds N_As = 100 µs, N_Bs = 999 µs, N_Cr = 150 µs. -/
def mkClassicCtx (maxWait : Nat) : IsotpCtx := {
  can_format := .canClassic
  can_frame := []
  can_frame_len := 0
  addressing_mode := .normal
  address_extension := 0
  address_extension_len := 0
  can_max_datalen := 8
  total_datalen := 0
  remaining_datalen := 0
  sequence_num := 0
  timeouts_n_as := 100
  timeouts_n_bs := 999
  timeouts_n_cr := 150
  timestamp_us := 0
  fc_wait_max := maxWait
  fc_wait_count := 0
  can_tx_f_null := false }

/-- A transport script with the given receive outcomes, an always-
succeeding transmit side, and the clock at zero. -/
def mkWire (rx : List RxEv) : Wire :=
  { rxq := rx, txq := [], clock := 0, txLog := [], fcSeen := 0,
    checkLog := [] }

/-- An instantaneous reception of the given CAN frame. -/
def rxFrame (f : List Nat) : RxEv := ⟨0, .ok f⟩

/-- A 20-byte `0xAA` message (spec §8 scenario 3). -/
def aaMsg : List Nat := List.replicate 20 0xAA

/-- Peer flow-control frames: `30 BS ST` (CTS), `31 00 00` (WAIT). -/
def ctsFrame (bs : Nat) (stp : Nat) : List Nat := [0x30, bs, stp]
def waitFrame : List Nat := [0x31, 0x00, 0x00]

/-- The state of the classic/normal context right after `send_ff` has
built and transmitted the First-Frame `10 14 AA…` of the 20-byte message,
reset `fc_wait_count` (generalised to `cnt`) and armed the timer at clock
`k` — the state in which the FC-wait loop runs. -/
def postFfCtx (maxWait cnt k : Nat) : IsotpCtx :=
  { mkClassicCtx maxWait with
      can_frame := [0x10, 0x14, 0xAA, 0xAA, 0xAA, 0xAA, 0xAA, 0xAA]
      can_frame_len := 8
      total_datalen := 20
      remaining_datalen := 14
      sequence_num := 1
      timestamp_us := k
      fc_wait_count := cnt }

/-- Wire state inside the FC-wait loop: `n` scripted WAIT receptions,
clock at `k`, arbitrary logs so far. -/
def waitWire (n k fcs : Nat) (txlog : List (List Nat))
    (chk : List (Nat × Nat × Nat)) : Wire :=
  { rxq := List.replicate n (rxFrame waitFrame), txq := [], clock := k,
    txLog := txlog, fcSeen := fcs, checkLog := chk }

/-- The claim's permitted Single-Frame payload ranges, written from the
claim's words (spec §4.2), with `max_payload` read as
`can_max_datalen(format)`: classic CAN `[0,7]` without extension byte,
`[0,6]` with it; CAN-FD additionally the escaped forms
`[8, max_payload-2]` / `[7, max_payload-3]`. -/
def sf_len_permitted_spec (fmt : CanFormat) (ext : Bool) (len : Int) : Prop :=
  match fmt, ext with
  | .canClassic, false => 0 ≤ len ∧ len ≤ 7
  | .canClassic, true => 0 ≤ len ∧ len ≤ 6
  | .canFd, false =>
      (0 ≤ len ∧ len ≤ 7) ∨ (8 ≤ len ∧ len ≤ can_max_datalen .canFd - 2)
  | .canFd, true =>
      (0 ≤ len ∧ len ≤ 6) ∨ (7 ≤ len ∧ len ≤ can_max_datalen .canFd - 3)
  | _, _ => False

/-- Whether an addressing mode carries the address-extension byte. -/
def usesExtension : AddrMode → Bool
  | .extended => true
  | .mixed => true
  | _ => false

/-- A recorded timeout check `(FCs seen, fc_wait_count, bound)` uses the
bound the send engine's ternary selects: N_As when `fc_wait_count = 0`,
N_Bs otherwise. -/
def boundOk (nAs nBs : Nat) (e : Nat × Nat × Nat) : Prop :=
  e.2.2 = if e.2.1 = 0 then nAs else nBs

/-- A classic/normal context mid-reception of a 20-byte message (13 bytes
still expected, next sequence number 2) whose scratch frame holds a
Flow-Control frame `30 01 02 …` — i.e. not a Consecutive Frame. -/
def cfDemoCtx : IsotpCtx :=
  { mkClassicCtx 0 with
      total_datalen := 20
      remaining_datalen := 13
      sequence_num := 2
      can_frame := [0x30, 1, 2, 3, 4, 5, 6, 7]
      can_frame_len := 8 }

/-- The same mid-reception context, but the scratch frame holds a CF with
sequence number 5 where 2 is expected. -/
def cfSnDemoCtx : IsotpCtx :=
  { cfDemoCtx with can_frame := [0x25, 1, 2, 3, 4, 5, 6, 7] }

/-! ## Helper lemmas -/

theorem uint32_of_int_small {x : Int} (h0 : 0 ≤ x) (h1 : x < 4294967296) :
    uint32_of_int x = x := Int.emod_eq_of_lt h0 h1

/-- The STmin round trip on 100 µs multiples up to 900 µs. -/
theorem stmin_roundtrip_hundreds :
    ∀ k : Nat, k < 10 →
      fc_stmin_parameter_to_usec (fc_stmin_usec_to_parameter (100 * k)) =
        100 * k := by
  decide

/-- The STmin round trip on 1 ms multiples up to 127 ms. -/
theorem stmin_roundtrip_thousands :
    ∀ m : Nat, m < 128 →
      fc_stmin_parameter_to_usec (fc_stmin_usec_to_parameter (1000 * m)) =
        1000 * m := by
  decide

/-! ## Claim theorems -/

/-- C8: the STmin codec round-trips on every value the decoder can emit —
`0`, the multiples of 100 µs up to 900 µs, and the multiples of 1000 µs up
to 127000 µs — and every reserved parameter byte (0x80–0xF0, 0xFA–0xFF)
decodes to 127000 µs. -/
theorem stmin_codec_roundtrip :
    (∀ v : Int,
      (v = 0 ∨ (∃ k : Nat, 1 ≤ k ∧ k ≤ 9 ∧ v = 100 * k) ∨
        (∃ m : Nat, 1 ≤ m ∧ m ≤ 127 ∧ v = 1000 * m)) →
      fc_stmin_parameter_to_usec (fc_stmin_usec_to_parameter v) = v) ∧
    (∀ b : Int, ((0x80 ≤ b ∧ b ≤ 0xf0) ∨ (0xfa ≤ b ∧ b ≤ 0xff)) →
      fc_stmin_parameter_to_usec b = 127000) := by
  constructor
  · rintro v (rfl | ⟨k, hk1, hk9, rfl⟩ | ⟨m, hm1, hm127, rfl⟩)
    · decide
    · exact stmin_roundtrip_hundreds k (by omega)
    · exact stmin_roundtrip_thousands m (by omega)
  · intro b hb
    simp only [fc_stmin_parameter_to_usec, MAX_STMIN_USEC, MAX_STMIN,
      USEC_PER_MSEC]
    split_ifs <;> omega

/-- Witness for C8 at `v = 300` and `b = 0x90`. -/
theorem stmin_codec_roundtrip_witness :
    fc_stmin_parameter_to_usec (fc_stmin_usec_to_parameter 300) = 300 ∧
      fc_stmin_parameter_to_usec 0x90 = 127000 :=
  ⟨stmin_codec_roundtrip.1 300 (Or.inr (Or.inl ⟨3, by omega, by omega, by norm_num⟩)),
   stmin_codec_roundtrip.2 0x90 (by omega)⟩

/-- C10: `set_isotp_address_extension` followed by
`get_isotp_address_extension` round-trips for every byte and every
non-NULL context, with no restriction on the addressing mode, and both
functions return `-EINVAL` exactly when the context pointer is NULL. -/
theorem address_extension_set_get_roundtrip :
    (∀ (ctx : IsotpCtx) (b : Nat), b < 256 →
      (set_isotp_address_extension (some ctx) b).fst = 0 ∧
      get_isotp_address_extension
        (set_isotp_address_extension (some ctx) b).snd = b) ∧
    (∀ b : Nat, (set_isotp_address_extension none b).fst = -EINVAL) ∧
    get_isotp_address_extension none = -EINVAL ∧
    (∀ ctx : IsotpCtx, get_isotp_address_extension (some ctx) ≠ -EINVAL) ∧
    (∀ (ctx : IsotpCtx) (b : Nat),
      (set_isotp_address_extension (some ctx) b).fst ≠ -EINVAL) := by
  refine ⟨fun ctx b _ => ⟨rfl, rfl⟩, fun _ => rfl, rfl, fun ctx => ?_,
    fun ctx b => ?_⟩
  · simp only [get_isotp_address_extension, EINVAL]
    omega
  · simp only [set_isotp_address_extension, EOK, EINVAL]
    omega

/-- Witness for C10 at byte `0xAB`. -/
theorem address_extension_set_get_roundtrip_witness :
    (set_isotp_address_extension (some (mkClassicCtx 0)) 0xab).fst = 0 ∧
      get_isotp_address_extension
        (set_isotp_address_extension (some (mkClassicCtx 0)) 0xab).snd = 0xab :=
  address_extension_set_get_roundtrip.1 (mkClassicCtx 0) 0xab (by omega)

/-- In the FC-wait loop of the send engine, a context configured with
`fc_wait_max = 0` tolerates any number of consecutive `FC.WAIT` frames:
the run consumes them all and ends blocked on the next receive, never
with an abort. -/
theorem send_ff_loop_waits_block :
    ∀ (n : Nat) (ctx : IsotpCtx) (w : Wire) (sb : List Nat) (sl : Int),
      ctx.addressing_mode = .normal →
      ctx.fc_wait_max = 0 →
      0 < ctx.remaining_datalen →
      ctx.timestamp_us = w.clock →
      w.rxq = List.replicate n (rxFrame waitFrame) →
      (send_ff_loop n ctx sb sl w).rc = BLOCKED := by
  intro n
  induction n with
  | zero =>
    intro ctx w sb sl hmode hmax hrem hts hrx
    rw [send_ff_loop]
    rw [if_neg (by omega),
        if_neg (by simp [timeout_expired, hts])]
  | succ n ih =>
    intro ctx w sb sl hmode hmax hrem hts hrx
    rw [send_ff_loop]
    rw [if_neg (by omega),
        if_neg (by simp [timeout_expired, hts])]
    simp only [hrx, List.replicate_succ]
    have hpf :
        parse_fc { ctx with can_frame := waitFrame,
                            can_frame_len := waitFrame.length } =
          .ok (.wait, 0, 0) := by
      simp [parse_fc, hmode, address_extension_len, waitFrame,
        fc_stmin_parameter_to_usec,
        show ((0x31 : Nat) &&& 0xf0) = 0x30 from rfl,
        show ((0x31 : Nat) &&& 0x07) = 0x01 from rfl]
    simp only [rxFrame, hpf]
    rw [if_neg (by simp [hmax])]
    exact ih _ _ sb sl hmode hmax hrem (by simp [timeout_start]) rfl

/-- C6: the send engine increments the FC.WAIT counter on each FC.WAIT
and aborts with `-ECONNABORTED` exactly when the configured maximum is
positive and the counter exceeds it.  With `max_wait = 2`, two
consecutive WAITs are tolerated (the transfer completes once a CTS
arrives) and the third WAIT aborts; with `max_wait = 0`, any number of
WAIT frames never causes an abort (the run just keeps waiting — here
until the scripted receptions run out). -/
theorem fc_wait_cap_enforced :
    (isotp_send (mkClassicCtx 2) aaMsg 20
       (mkWire [rxFrame waitFrame, rxFrame waitFrame, rxFrame waitFrame])).rc
      = -ECONNABORTED ∧
    (isotp_send (mkClassicCtx 2) aaMsg 20
       (mkWire [rxFrame waitFrame, rxFrame waitFrame,
                rxFrame (ctsFrame 0 0)])).rc = EOK ∧
    (∀ n : Nat,
      (isotp_send (mkClassicCtx 0) aaMsg 20
         (mkWire (List.replicate n (rxFrame waitFrame)))).rc = BLOCKED) := by
  refine ⟨by decide, by decide, fun n => ?_⟩
  have key :
      isotp_send (mkClassicCtx 0) aaMsg 20
          (mkWire (List.replicate n (rxFrame waitFrame))) =
        send_ff_loop (List.replicate n (rxFrame waitFrame)).length
          (postFfCtx 0 0 0) aaMsg 20
          { rxq := List.replicate n (rxFrame waitFrame), txq := [],
            clock := 0,
            txLog := [[0x10, 0x14, 0xAA, 0xAA, 0xAA, 0xAA, 0xAA, 0xAA]],
            fcSeen := 0, checkLog := [] } := rfl
  rw [key, List.length_replicate]
  exact send_ff_loop_waits_block n _ _ aaMsg 20 rfl rfl (by decide) rfl rfl

/-- `wireTx` never touches the check log. -/
theorem wireTx_checkLog (w : Wire) (f : List Nat) :
    (wireTx w f).snd.checkLog = w.checkLog := by
  unfold wireTx
  cases w.txq <;> rfl

/-- `prepare_cf` keeps the timer configuration of the context. -/
theorem prepare_cf_timeouts (ctx : IsotpCtx) (sb : List Nat) (sl : Int) :
    (prepare_cf ctx sb sl).snd.timeouts_n_as = ctx.timeouts_n_as ∧
    (prepare_cf ctx sb sl).snd.timeouts_n_bs = ctx.timeouts_n_bs := by
  unfold prepare_cf
  dsimp only
  split_ifs <;> exact ⟨rfl, rfl⟩

/-- `prepare_ff` keeps the timer configuration of the context. -/
theorem prepare_ff_timeouts (ctx : IsotpCtx) (sb : List Nat) (sl : Int) :
    (prepare_ff ctx sb sl).snd.timeouts_n_as = ctx.timeouts_n_as ∧
    (prepare_ff ctx sb sl).snd.timeouts_n_bs = ctx.timeouts_n_bs := by
  unfold prepare_ff
  dsimp only
  split_ifs <;> exact ⟨rfl, rfl⟩

/-- `send_cfs` keeps the timer configuration and the check log. -/
theorem send_cfs_preserves :
    ∀ (fuel : Nat) (ctx : IsotpCtx) (sb : List Nat) (sl st : Int)
      (bsz bs : Nat) (w : Wire),
      (send_cfs fuel ctx sb sl st bsz bs w).ctx.timeouts_n_as =
        ctx.timeouts_n_as ∧
      (send_cfs fuel ctx sb sl st bsz bs w).ctx.timeouts_n_bs =
        ctx.timeouts_n_bs ∧
      (send_cfs fuel ctx sb sl st bsz bs w).w.checkLog = w.checkLog := by
  intro fuel
  induction fuel with
  | zero =>
    intro ctx sb sl st bsz bs w
    rw [send_cfs]
    split <;> exact ⟨rfl, rfl, rfl⟩
  | succ n ih =>
    intro ctx sb sl st bsz bs w
    rw [send_cfs]
    split
    · exact ⟨rfl, rfl, rfl⟩
    · have hcf := prepare_cf_timeouts ctx sb sl
      rcases hpc : prepare_cf ctx sb sl with ⟨rc, ctx'⟩
      rw [hpc] at hcf
      dsimp only at hcf ⊢
      by_cases hrc : rc < 0
      · rw [if_pos hrc]
        exact ⟨hcf.1, hcf.2, rfl⟩
      · rw [if_neg hrc]
        by_cases htx :
            (wireTx w (ctx'.can_frame.take ctx'.can_frame_len)).fst < 0
        · rw [if_pos htx]
          exact ⟨hcf.1, hcf.2, wireTx_checkLog w _⟩
        · rw [if_neg htx]
          exact ⟨(ih _ _ _ _ _ _ _).1.trans hcf.1,
                 (ih _ _ _ _ _ _ _).2.1.trans hcf.2,
                 (ih _ _ _ _ _ _ _).2.2.trans (wireTx_checkLog w _)⟩

theorem boundOk_append {nAs nBs : Nat} {L : List (Nat × Nat × Nat)}
    (h : ∀ e ∈ L, boundOk nAs nBs e) (fcs cnt app : Nat)
    (happ : app = if cnt = 0 then nAs else nBs) :
    ∀ e ∈ L ++ [(fcs, cnt, app)], boundOk nAs nBs e := by
  intro e he
  rcases List.mem_append.mp he with h' | h'
  · exact h e h'
  · rw [List.mem_singleton] at h'
    subst h'
    exact happ

/-- Every timeout check recorded by the FC-wait loop selects its bound by
the `fc_wait_count = 0` test of the source. -/
theorem send_ff_loop_boundOk (nAs nBs : Nat) :
    ∀ (fuel : Nat) (ctx : IsotpCtx) (sb : List Nat) (sl : Int) (w : Wire),
      ctx.timeouts_n_as = nAs → ctx.timeouts_n_bs = nBs →
      (∀ e ∈ w.checkLog, boundOk nAs nBs e) →
      ∀ e ∈ (send_ff_loop fuel ctx sb sl w).w.checkLog,
        boundOk nAs nBs e := by
  intro fuel
  induction fuel with
  | zero =>
    intro ctx sb sl w hA hB hw e he
    rw [send_ff_loop] at he
    dsimp only at he
    generalize happ :
      (if ctx.fc_wait_count = 0 then ctx.timeouts_n_as
       else ctx.timeouts_n_bs) = app at he
    have happ' : app = if ctx.fc_wait_count = 0 then nAs else nBs := by
      rw [← happ, hA, hB]
    split at he
    · exact hw e he
    · split at he
      · exact boundOk_append hw _ _ _ happ' e he
      · exact boundOk_append hw _ _ _ happ' e he
  | succ n ih =>
    intro ctx sb sl w hA hB hw e he
    rw [send_ff_loop] at he
    dsimp only at he
    generalize happ :
      (if ctx.fc_wait_count = 0 then ctx.timeouts_n_as
       else ctx.timeouts_n_bs) = app at he
    have happ' : app = if ctx.fc_wait_count = 0 then nAs else nBs := by
      rw [← happ, hA, hB]
    split at he
    · exact hw e he
    · split at he
      · exact boundOk_append hw _ _ _ happ' e he
      · split at he
        · exact boundOk_append hw _ _ _ happ' e he
        · rename_i ev rest hrxq
          split at he
          · exact boundOk_append hw _ _ _ happ' e he
          · split at he
            · exact boundOk_append hw _ _ _ happ' e he
            · rename_i fs bs stmin hfc
              split at he
              · -- CTS: either the CF block failed, or the loop recurses
                split at he
                · rw [(send_cfs_preserves _ _ _ _ _ _ _ _).2.2] at he
                  exact boundOk_append hw _ _ _ happ' e he
                · refine ih _ sb sl _ ?_ ?_ ?_ e he
                  · split
                    · exact (send_cfs_preserves _ _ _ _ _ _ _ _).1.trans hA
                    · exact (send_cfs_preserves _ _ _ _ _ _ _ _).1.trans hA
                  · split
                    · exact (send_cfs_preserves _ _ _ _ _ _ _ _).2.1.trans hB
                    · exact (send_cfs_preserves _ _ _ _ _ _ _ _).2.1.trans hB
                  · intro e' he'
                    rw [(send_cfs_preserves _ _ _ _ _ _ _ _).2.2] at he'
                    exact boundOk_append hw _ _ _ happ' e' he'
              · -- WAIT: either the cap fires, or the loop recurses
                split at he
                · exact boundOk_append hw _ _ _ happ' e he
                · refine ih _ sb sl _ ?_ ?_ ?_ e he
                  · exact hA
                  · exact hB
                  · intro e' he'
                    exact boundOk_append hw _ _ _ happ' e' he'
              · exact boundOk_append hw _ _ _ happ' e he
              · exact boundOk_append hw _ _ _ happ' e he

/-- `send_sf` performs no timeout check. -/
theorem send_sf_checkLog (ctx : IsotpCtx) (sb : List Nat) (sl : Int)
    (w : Wire) : (send_sf ctx sb sl w).w.checkLog = w.checkLog := by
  unfold send_sf
  rcases hps : prepare_sf (some ctx) (some sb) sl with ⟨rc, copt⟩
  dsimp only
  split_ifs
  · rfl
  · exact wireTx_checkLog w _

/-- C5 (amended): every timeout check performed during an `isotp_send`
run selects its bound by the engine's `fc_wait_count == 0` test — N_As
when no FC.WAIT has been counted since the last FF or completed CTS block
(which covers both the wait for the first FC after the FF and the wait
after every CTS block, the counter having just been reset), and N_Bs
exactly when at least one FC.WAIT has been received since.  So the N_As
bound is not reserved to the first FC wait (see the counterexample), but
the bound is always one of N_As/N_Bs and is N_Bs precisely on the
`FC.WAIT`-to-FC gaps the spec describes. -/
theorem isotp_send_checkLog_boundOk :
    ∀ (nAs nBs : Nat) (ctx : IsotpCtx) (sb : List Nat) (sl : Int) (w : Wire),
      ctx.timeouts_n_as = nAs → ctx.timeouts_n_bs = nBs →
      (∀ e ∈ w.checkLog, boundOk nAs nBs e) →
      ∀ e ∈ (isotp_send ctx sb sl w).w.checkLog, boundOk nAs nBs e := by
  intro nAs nBs ctx sb sl w hA hB hw e he
  unfold isotp_send at he
  split_ifs at he
  · exact hw e he
  · rw [send_sf_checkLog] at he
    exact hw e he
  · unfold send_ff at he
    rcases hpf : prepare_ff ctx sb sl with ⟨rc, ctx'⟩
    rw [hpf] at he
    dsimp only at he
    have hA' : ctx'.timeouts_n_as = nAs := by
      have := prepare_ff_timeouts ctx sb sl
      rw [hpf] at this
      exact this.1.trans hA
    have hB' : ctx'.timeouts_n_bs = nBs := by
      have := prepare_ff_timeouts ctx sb sl
      rw [hpf] at this
      exact this.2.trans hB
    split at he
    · exact hw e he
    · split at he
      · rw [wireTx_checkLog] at he
        exact hw e he
      · refine send_ff_loop_boundOk nAs nBs _ _ sb sl _ ?_ ?_ ?_ e he
        · exact hA'
        · exact hB'
        · intro e' he'
          rw [wireTx_checkLog] at he'
          exact hw e' he'

/-- C5 (counterexample to the claim as stated): with N_As = 100 µs and
N_Bs = 999 µs, send 20 bytes; the peer answers the FF with `FC.CTS` with
block size 1, so one CF is sent and data remains.  The engine's second
timeout check — awaiting a non-first FC (one FC has already been
received, first trace component 1) — compares against 100 = N_As, not
N_Bs, contradicting "the engine never applies the N_As bound to a
non-first FC wait". -/
theorem isotp_send_second_wait_uses_n_as :
    (isotp_send (mkClassicCtx 0) aaMsg 20
       (mkWire [rxFrame (ctsFrame 1 1),
                ⟨0, .error (-ETIMEDOUT)⟩])).w.checkLog
      = [(0, 0, 100), (1, 0, 100)] ∧
    (mkClassicCtx 0).timeouts_n_as = 100 ∧
    (mkClassicCtx 0).timeouts_n_bs = 999 := by
  refine ⟨by decide, rfl, rfl⟩

/-- Witness for C5 on the counterexample run: the theorem instantiated at
the second check of that run. -/
theorem isotp_send_checkLog_boundOk_witness :
    boundOk 100 999 (1, 0, 100) :=
  isotp_send_checkLog_boundOk 100 999 (mkClassicCtx 0) aaMsg 20
    (mkWire [rxFrame (ctsFrame 1 1), ⟨0, .error (-ETIMEDOUT)⟩])
    rfl rfl (by intro e he; simp [mkWire] at he) (1, 0, 100) (by decide)

/-- C4 (amended): `isotp_recv` zeroes `total_datalen` and
`remaining_datalen` at entry, and every non-negative (success) return of
`isotp_recv` leaves the context idle.  (The original claim fails for
`isotp_send` and for the failure paths of a multi-frame receive — see the
counterexample.) -/
theorem isotp_recv_idle_on_success :
    ∀ (ctx : IsotpCtx) (buf : List Nat) (sz : Int) (bs : Nat) (st : Int)
      (w : Wire),
      0 ≤ (isotp_recv ctx buf sz bs st w).rc →
      (isotp_recv ctx buf sz bs st w).ctx.total_datalen = 0 ∧
      (isotp_recv ctx buf sz bs st w).ctx.remaining_datalen = 0 := by
  intro ctx buf sz bs st w h
  unfold isotp_recv at h ⊢
  dsimp only at h ⊢
  split_ifs at h ⊢
  · exact absurd h (by norm_num [ERANGE])
  · cases hrx : w.rxq with
    | nil =>
      rw [hrx] at h
      dsimp only at h ⊢
      exact absurd h (by norm_num [BLOCKED])
    | cons ev rest =>
      rw [hrx] at h
      dsimp only at h ⊢
      cases hres : ev.res with
      | error e =>
        rw [hres] at h
        exact ⟨rfl, rfl⟩
      | ok f =>
        rw [hres] at h
        dsimp only at h ⊢
        split_ifs at h ⊢ <;> (try dsimp only at h ⊢) <;>
          first
            | exact ⟨rfl, rfl⟩
            | (exfalso; omega)

/-- C4 (counterexample to the claim as stated): a successful multi-frame
`isotp_send` — 20 bytes, the peer answering the FF with `FC.CTS`,
block size 0 — returns 0 (success) yet leaves `total_datalen = 20` in the
context: `isotp_send` does not return the context to the idle state. -/
theorem isotp_send_success_leaves_total_datalen :
    (isotp_send (mkClassicCtx 0) aaMsg 20
       (mkWire [rxFrame (ctsFrame 0 0)])).rc = 0 ∧
    (isotp_send (mkClassicCtx 0) aaMsg 20
       (mkWire [rxFrame (ctsFrame 0 0)])).ctx.total_datalen = 20 := by
  exact ⟨by decide, by decide⟩

/-- Witness for C4 on a successful single-frame receive. -/
theorem isotp_recv_idle_on_success_witness :
    (isotp_recv (mkClassicCtx 0) (List.replicate 64 0) 64 0 0
       (mkWire [rxFrame [0x07, 0xA0, 0xA1, 0xA2, 0xA3, 0xA4, 0xA5, 0xA6]])).ctx.total_datalen
      = 0 ∧
    (isotp_recv (mkClassicCtx 0) (List.replicate 64 0) 64 0 0
       (mkWire [rxFrame [0x07, 0xA0, 0xA1, 0xA2, 0xA3, 0xA4, 0xA5, 0xA6]])).ctx.remaining_datalen
      = 0 :=
  isotp_recv_idle_on_success (mkClassicCtx 0) (List.replicate 64 0) 64 0 0
    (mkWire [rxFrame [0x07, 0xA0, 0xA1, 0xA2, 0xA3, 0xA4, 0xA5, 0xA6]])
    (by decide)

/-- C2 (counterexample to the claim as stated): a context holding a
Flow-Control frame (upper nibble 0x3, not the CF PCI 0x2) makes
`parse_cf` return `-EBADMSG`, not 0: the non-CF frame is reported as an
error, not silently ignored. -/
theorem parse_cf_non_cf_returns_error_not_zero :
    (parse_cf cfDemoCtx (List.replicate 20 0) 20).rc = -EBADMSG ∧
    (parse_cf cfDemoCtx (List.replicate 20 0) 20).rc ≠ 0 := by
  exact ⟨by decide, by decide⟩

/-- C2 (amended): for every context, receive buffer and buffer size
without exception, a frame without the CF PCI makes `parse_cf` return a
strictly negative error code — never 0 — with the context and buffer
completely unchanged; and whenever the preceding guards pass (buffer
size in range and able to hold the message, valid addressing mode) that
error is exactly `-EBADMSG`.  The non-CF frame is reported as an error,
not silently ignored. -/
theorem parse_cf_non_cf_ebadmsg_unchanged :
    (∀ (ctx : IsotpCtx) (buf : List Nat) (sz : Int),
      (ctx.can_frame.getD
          (address_extension_len ctx.addressing_mode).toNat 0) &&& 0xf0
        ≠ 0x20 →
      (parse_cf ctx buf sz).rc < 0 ∧
      (parse_cf ctx buf sz).ctx = ctx ∧
      (parse_cf ctx buf sz).buf = buf) ∧
    (∀ (ctx : IsotpCtx) (buf : List Nat) (sz : Int),
      0 ≤ sz → sz ≤ MAX_TX_DATALEN →
      ctx.total_datalen ≤ sz →
      0 ≤ address_extension_len ctx.addressing_mode →
      (ctx.can_frame.getD
          (address_extension_len ctx.addressing_mode).toNat 0) &&& 0xf0
        ≠ 0x20 →
      parse_cf ctx buf sz = ⟨-EBADMSG, ctx, buf⟩) := by
  constructor
  · intro ctx buf sz hpci
    unfold parse_cf
    dsimp only
    split_ifs <;>
      first
        | contradiction
        | (refine ⟨?_, rfl, rfl⟩;
            first
              | assumption
              | norm_num [ERANGE, ENOBUFS, EBADMSG])
  · intro ctx buf sz h0 hmax htot hae hpci
    simp only [MAX_TX_DATALEN] at hmax
    have hu : uint32_of_int sz = sz := uint32_of_int_small h0 (by omega)
    unfold parse_cf
    rw [if_neg (by rw [hu]; simp only [MAX_TX_DATALEN]; omega)]
    rw [if_neg (by omega)]
    dsimp only
    rw [if_neg (by omega)]
    rw [if_pos hpci]

/-- Witness for C2 at the concrete non-CF context: both the universal
no-silent-ignore part and the exact `-EBADMSG` part, instantiated. -/
theorem parse_cf_non_cf_ebadmsg_unchanged_witness :
    ((parse_cf cfDemoCtx (List.replicate 20 0) 20).rc < 0 ∧
     (parse_cf cfDemoCtx (List.replicate 20 0) 20).ctx = cfDemoCtx ∧
     (parse_cf cfDemoCtx (List.replicate 20 0) 20).buf
       = List.replicate 20 0) ∧
    parse_cf cfDemoCtx (List.replicate 20 0) 20 =
      ⟨-EBADMSG, cfDemoCtx, List.replicate 20 0⟩ :=
  ⟨parse_cf_non_cf_ebadmsg_unchanged.1 cfDemoCtx (List.replicate 20 0) 20
    (by decide),
   parse_cf_non_cf_ebadmsg_unchanged.2 cfDemoCtx (List.replicate 20 0) 20
    (by decide) (by decide) (by decide) (by decide) (by decide)⟩

/-- C3 (counterexample to the claim as stated): on the sequence-number
mismatch abort path, `parse_cf` sets `remaining_datalen` to
`INT_MAX = 2147483647` while `total_datalen` stays 20, violating
`remaining ≤ total`. -/
theorem parse_cf_abort_breaks_invariant :
    (parse_cf cfSnDemoCtx (List.replicate 20 0) 20).rc = -ECONNABORTED ∧
    (parse_cf cfSnDemoCtx (List.replicate 20 0) 20).ctx.remaining_datalen
      = 2147483647 ∧
    (parse_cf cfSnDemoCtx (List.replicate 20 0) 20).ctx.total_datalen = 20 ∧
    ¬ ((parse_cf cfSnDemoCtx (List.replicate 20 0) 20).ctx.remaining_datalen
        ≤ (parse_cf cfSnDemoCtx (List.replicate 20 0) 20).ctx.total_datalen) := by
  exact ⟨by decide, by decide, by decide, by decide⟩

/-- C3 (amended): every return of `parse_cf` other than the
sequence-mismatch abort preserves `0 ≤ remaining ≤ total` (for a frame at
least covering its header); the abort return deliberately poisons the
context, setting `remaining_datalen = INT_MAX` (with `total_datalen`
unchanged), which retains `0 ≤ remaining` but breaks `remaining ≤ total`
whenever `total < INT_MAX`. -/
theorem parse_cf_invariant_characterization :
    ∀ (ctx : IsotpCtx) (buf : List Nat) (sz : Int),
      0 ≤ ctx.remaining_datalen →
      ctx.remaining_datalen ≤ ctx.total_datalen →
      address_extension_len ctx.addressing_mode + 1 ≤ (ctx.can_frame_len : Int) →
      ((parse_cf ctx buf sz).rc ≠ -ECONNABORTED →
        0 ≤ (parse_cf ctx buf sz).ctx.remaining_datalen ∧
        (parse_cf ctx buf sz).ctx.remaining_datalen ≤
          (parse_cf ctx buf sz).ctx.total_datalen) ∧
      ((parse_cf ctx buf sz).rc = -ECONNABORTED →
        (parse_cf ctx buf sz).ctx.remaining_datalen = INT_MAX ∧
        (parse_cf ctx buf sz).ctx.total_datalen = ctx.total_datalen) := by
  intro ctx buf sz h1 h2 h3
  have haec : address_extension_len ctx.addressing_mode = 0 ∨
      address_extension_len ctx.addressing_mode = 1 ∨
      address_extension_len ctx.addressing_mode = -14 := by
    cases ctx.addressing_mode <;> simp [address_extension_len, EFAULT]
  unfold parse_cf
  dsimp only
  split_ifs <;> constructor <;> intro hx <;> dsimp only at hx ⊢ <;>
    simp only [ERANGE, ENOBUFS, EBADMSG, ECONNABORTED, INT_MAX] at * <;>
    first
      | exact ⟨trivial, trivial⟩
      | omega

/-- Witness for C3 at the concrete non-CF context (a non-abort return
preserving the invariant). -/
theorem parse_cf_invariant_characterization_witness :
    0 ≤ (parse_cf cfDemoCtx (List.replicate 20 0) 20).ctx.remaining_datalen ∧
    (parse_cf cfDemoCtx (List.replicate 20 0) 20).ctx.remaining_datalen ≤
      (parse_cf cfDemoCtx (List.replicate 20 0) 20).ctx.total_datalen :=
  (parse_cf_invariant_characterization cfDemoCtx (List.replicate 20 0) 20
    (by decide) (by decide) (by decide)).1 (by decide)

/-- C1 (counterexample to the claim as stated): first frame = FF
`10 14 AA…` declaring 20 bytes, caller buffer capacity 8.  `isotp_recv`
returns `-EOVERFLOW`, not `-ECONNABORTED`, and transmits nothing — in
particular not a single FC.OVFLW. -/
theorem isotp_recv_ff_overflow_counterexample :
    (isotp_recv (mkClassicCtx 0) (List.replicate 8 0) 8 0 0
       (mkWire [rxFrame [0x10, 0x14, 0xAA, 0xAA, 0xAA, 0xAA, 0xAA, 0xAA]])).rc
      ≠ -ECONNABORTED ∧
    (isotp_recv (mkClassicCtx 0) (List.replicate 8 0) 8 0 0
       (mkWire [rxFrame [0x10, 0x14, 0xAA, 0xAA, 0xAA, 0xAA, 0xAA, 0xAA]])).rc
      = -EOVERFLOW ∧
    (isotp_recv (mkClassicCtx 0) (List.replicate 8 0) 8 0 0
       (mkWire [rxFrame [0x10, 0x14, 0xAA, 0xAA, 0xAA, 0xAA, 0xAA, 0xAA]])).w.txLog
      = [] := by
  exact ⟨by decide, by decide, by decide⟩

/-- C1 (amended): when the first received frame is a First-Frame whose
declared length (here 20) exceeds the caller's buffer capacity, the
receive engine transmits no frame at all — in particular no FC.OVFLW —
and returns the `parse_ff` error `-EOVERFLOW` (not `-ECONNABORTED`) to
the caller. -/
theorem isotp_recv_ff_overflow_no_fc :
    ∀ cap : Int, 0 ≤ cap → cap < 20 →
      (isotp_recv (mkClassicCtx 0) (List.replicate 8 0) cap 0 0
        (mkWire [rxFrame [0x10, 0x14, 0xAA, 0xAA, 0xAA, 0xAA, 0xAA, 0xAA]])).rc
        = -EOVERFLOW ∧
      (isotp_recv (mkClassicCtx 0) (List.replicate 8 0) cap 0 0
        (mkWire [rxFrame [0x10, 0x14, 0xAA, 0xAA, 0xAA, 0xAA, 0xAA, 0xAA]])).w.txLog
        = [] := by
  intro cap h0 h20
  have hu : uint32_of_int cap = cap := uint32_of_int_small h0 (by omega)
  have hregs : ¬(cap < 0 ∨ uint32_of_int cap > MAX_TX_DATALEN) := by
    rw [hu]; simp only [MAX_TX_DATALEN]; omega
  unfold isotp_recv
  rw [if_neg hregs]
  dsimp only [mkWire, rxFrame]
  norm_num [mkClassicCtx, List.getD]
  rw [if_neg (show ((16:Nat) &&& 240 = 0) = False by decide).mp]
  unfold parse_ff
  rw [if_neg hregs]
  norm_num [ff_dlmin, can_max_datalen, List.getD]
  simp only [show ((16:Nat) &&& 240) = 16 from rfl, show ((16:Nat) &&& 15) = 0 from rfl]
  norm_num
  rw [if_pos (show cap < 20 by omega)]
  norm_num [EOVERFLOW]

/-- Witness for C1 at capacity 8. -/
theorem isotp_recv_ff_overflow_no_fc_witness :
    (isotp_recv (mkClassicCtx 0) (List.replicate 8 0) (8 : Int) 0 0
       (mkWire [rxFrame [0x10, 0x14, 0xAA, 0xAA, 0xAA, 0xAA, 0xAA, 0xAA]])).rc
      = -EOVERFLOW ∧
    (isotp_recv (mkClassicCtx 0) (List.replicate 8 0) (8 : Int) 0 0
       (mkWire [rxFrame [0x10, 0x14, 0xAA, 0xAA, 0xAA, 0xAA, 0xAA, 0xAA]])).w.txLog
      = [] :=
  isotp_recv_ff_overflow_no_fc 8 (by norm_num) (by norm_num)

/-- C9: `prepare_sf` copies and returns `len` exactly when `len` lies in
the permitted range for the context's format and addressing mode —
classic CAN `[0,7]` without extension byte / `[0,6]` with, CAN-FD
additionally the escaped ranges `[8, 62]` / `[7, 61]` — and otherwise
returns `-EOVERFLOW` for representable `len ≥ 0`, `-ERANGE` for
`len < 0`, and `-EINVAL` when the context or the buffer pointer is NULL
(`len` ranges over the C `int` domain, so the `len > 2^32-2` case of the
claim is vacuous). -/
theorem prepare_sf_len_ranges :
    (∀ (ctx : IsotpCtx) (buf : List Nat) (len : Int),
      ctx.can_tx_f_null = false →
      (ctx.can_format = .canClassic ∨ ctx.can_format = .canFd) →
      (ctx.addressing_mode = .normal ∨ ctx.addressing_mode = .normalFixed ∨
        ctx.addressing_mode = .extended ∨ ctx.addressing_mode = .mixed) →
      -2147483648 ≤ len → len ≤ 2147483647 →
      ((0 ≤ len →
        ((prepare_sf (some ctx) (some buf) len).fst = len ↔
          sf_len_permitted_spec ctx.can_format
            (usesExtension ctx.addressing_mode) len)) ∧
       (0 ≤ len →
        ¬ sf_len_permitted_spec ctx.can_format
            (usesExtension ctx.addressing_mode) len →
        (prepare_sf (some ctx) (some buf) len).fst = -EOVERFLOW) ∧
       (len < 0 → (prepare_sf (some ctx) (some buf) len).fst = -ERANGE))) ∧
    (∀ (buf : List Nat) (len : Int),
      (prepare_sf none (some buf) len).fst = -EINVAL) ∧
    (∀ (ctx : IsotpCtx) (len : Int),
      (prepare_sf (some ctx) none len).fst = -EINVAL) := by
  refine ⟨?_, fun _ _ => rfl, fun _ _ => rfl⟩
  intro ctx buf len htx hfmt hmode hlo hhi
  refine ⟨?_, ?_, ?_⟩
  · intro h0
    have hu : uint32_of_int len = len := uint32_of_int_small h0 (by omega)
    unfold prepare_sf
    dsimp only
    rw [if_neg (by simp [htx])]
    rw [if_neg (by rw [hu]; simp only [MAX_TX_DATALEN]; omega)]
    rcases hmode with hm | hm | hm | hm <;> rw [hm] <;>
      rcases hfmt with hf | hf <;> rw [hf] <;>
      dsimp only <;>
      split_ifs <;>
      simp only [hu, sf_len_permitted_spec, usesExtension, can_max_datalen,
        EOVERFLOW, EINVAL, ERANGE] at * <;>
      constructor <;> intro hcc <;> first | trivial | omega
  · intro h0 hnp
    have hu : uint32_of_int len = len := uint32_of_int_small h0 (by omega)
    unfold prepare_sf
    dsimp only
    rw [if_neg (by simp [htx])]
    rw [if_neg (by rw [hu]; simp only [MAX_TX_DATALEN]; omega)]
    rcases hmode with hm | hm | hm | hm <;> rw [hm] at hnp ⊢ <;>
      rcases hfmt with hf | hf <;> rw [hf] at hnp ⊢ <;>
      dsimp only <;>
      split_ifs <;>
      simp only [hu, sf_len_permitted_spec, usesExtension, can_max_datalen,
        EOVERFLOW, EINVAL, ERANGE] at * <;>
      first | trivial | omega
  · intro hneg
    unfold prepare_sf
    dsimp only
    rw [if_neg (by simp [htx])]
    rw [if_pos (Or.inl hneg)]

/-- Witness for C9: classic CAN, normal addressing: `len = 7` is copied
and returned, `len = 9` (not permitted for classic CAN) fails with
`-EOVERFLOW`. -/
theorem prepare_sf_len_ranges_witness :
    (prepare_sf (some (mkClassicCtx 0)) (some (List.replicate 7 1)) 7).fst = 7 ∧
    (prepare_sf (some (mkClassicCtx 0)) (some (List.replicate 9 1)) 9).fst
      = -EOVERFLOW :=
  ⟨(((prepare_sf_len_ranges.1 (mkClassicCtx 0) (List.replicate 7 1) 7
      rfl (Or.inl rfl) (Or.inl rfl) (by norm_num) (by norm_num)).1
      (by norm_num)).mpr (by constructor <;> norm_num)),
   ((prepare_sf_len_ranges.1 (mkClassicCtx 0) (List.replicate 9 1) 9
      rfl (Or.inl rfl) (Or.inl rfl) (by norm_num) (by norm_num)).2.1
      (by norm_num)
      (by simp only [sf_len_permitted_spec, usesExtension, mkClassicCtx]
          omega))⟩

/-- C7 (the code at the claim's input): receiving the classic-CAN
single frame `07 A0 A1 A2 A3 A4 A5 A6` with a 64-byte buffer makes
`isotp_recv` return `0` — not `7`, the payload length documented in
isotp.h and stated by the claim — although the buffer does receive the 7
payload bytes.  `parse_sf` zeroes `total_datalen` and `isotp_recv` then
returns that zeroed field. -/
theorem isotp_recv_sf_returns_zero_not_seven :
    (isotp_recv (mkClassicCtx 0) (List.replicate 64 0) 64 0 0
      (mkWire [rxFrame [0x07, 0xA0, 0xA1, 0xA2, 0xA3, 0xA4, 0xA5, 0xA6]])).rc
      = 0 ∧
    (isotp_recv (mkClassicCtx 0) (List.replicate 64 0) 64 0 0
      (mkWire [rxFrame [0x07, 0xA0, 0xA1, 0xA2, 0xA3, 0xA4, 0xA5, 0xA6]])).rc
      ≠ 7 ∧
    (isotp_recv (mkClassicCtx 0) (List.replicate 64 0) 64 0 0
      (mkWire [rxFrame [0x07, 0xA0, 0xA1, 0xA2, 0xA3, 0xA4, 0xA5, 0xA6]])).buf.take 7
      = [0xA0, 0xA1, 0xA2, 0xA3, 0xA4, 0xA5, 0xA6] := by
  refine ⟨by decide, by decide, by decide⟩

end Isotp
